import Mathlib

/-!
# KoalaLiteLaundry — verification of the payroll / order / time-tracker logic

Shallow embedding of the computational core of the repository:

* the DTR (daily time record) hours-split calculation of `src/emp.py`
  (`dtr_form` Log Time handler), `src/moon.py` Staff Timekeeping, and
  `src/moon.py` `admin_dtr_form`;
* the pay computation and period aggregation of the payroll generation
  handlers (`tab_pay`) in `src/emp.py` and `src/moon.py`;
* the duplicate-entry check of the `admin_dtr_form` handler in `src/moon.py`;
* the order-status update handler of `src/app.py` / `src/moon.py`;
* the `stop_timer` amount computation of `src/clocky.py` / `src/online_clocky.py`.

Money and hour quantities are embedded as exact rationals (`ℚ`); the source
uses Python floats, whose rounding plays no role in the properties below.
Clock times are embedded as seconds since midnight (`ℤ`), calendar dates as
day numbers (`ℤ`): the source compares dates only by equality and by `≤`.
-/

namespace Koala

/-! ## Hours Split Calculator

`src/emp.py` lines 147–161 (and identically `src/moon.py` lines 269–283,
Staff Timekeeping):

    total_hours = (dt_out - dt_in).total_seconds() / 3600
    if total_hours > 5:
        total_hours -= 1
    reg_hours = min(total_hours, 8.0)
    ot_hours = max(total_hours - 8.0, 0.0)

`src/moon.py` lines 394–399 (`admin_dtr_form`) is the same except the break
deduction is `0.5` instead of `1`. -/

/-- Raw worked hours from clock times given in seconds since midnight:
`(dt_out - dt_in).total_seconds() / 3600`. -/
def rawHours (t_in t_out : ℤ) : ℚ :=
  ((t_out : ℚ) - (t_in : ℚ)) / 3600

/-- Break deduction: `if total_hours > 5: total_hours -= brk` where `brk` is
the variant's break constant (`1` in `emp.py` and `moon.py` Staff
Timekeeping, `1/2` in `moon.py` `admin_dtr_form`). -/
def adjustedHours (brk raw : ℚ) : ℚ :=
  if raw > 5 then raw - brk else raw

/-- Regular hours: `reg_hours = min(total_hours, 8.0)`. -/
def regHours (adj : ℚ) : ℚ := min adj 8

/-- Overtime hours: `ot_hours = max(total_hours - 8.0, 0.0)`. -/
def otHours (adj : ℚ) : ℚ := max (adj - 8) 0

/-- The `(reg_hours, ot_hours)` pair computed by the `dtr_form` Log Time
handler of `src/emp.py` (lines 147–161) and the Staff Timekeeping handler of
`src/moon.py` (lines 269–283): one full hour of break deducted when the raw
duration exceeds 5 hours. -/
def dtrSplit (t_in t_out : ℤ) : ℚ × ℚ :=
  let total := adjustedHours 1 (rawHours t_in t_out)
  (regHours total, otHours total)

/-- The `(reg, ot)` pair computed by the `admin_dtr_form` Log Time handler of
`src/moon.py` (lines 394–399): half an hour of break deducted when the raw
duration exceeds 5 hours. -/
def adminDtrSplit (t_in t_out : ℤ) : ℚ × ℚ :=
  let hrs := adjustedHours (1/2) (rawHours t_in t_out)
  (regHours hrs, otHours hrs)

/-! ## Pay Computation (`tab_pay` generate handlers)

`src/emp.py` lines 230–240 and `src/moon.py` lines 443–447 compute, on the
DTR rows merged with the employee rate card:

    Base_Pay = Reg_Hours * Hourly_Rate
    OT_Pay = OT_Hours * Hourly_Rate * OT_Rate
    Holiday_Premium = Reg_Hours * Hourly_Rate * (Holiday_Rate - 1.0) if Is_Holiday else 0
    Total_Daily_Pay = Base_Pay + OT_Pay + Holiday_Premium
-/

/-- One DTR row joined with the employee rate card: the columns of the
`merged` dataframe of the payroll generation handlers that the pay
computation reads. -/
structure MergedRow where
  date : ℤ
  employee_id : String
  name : String
  reg_hours : ℚ
  ot_hours : ℚ
  is_holiday : Bool
  hourly_rate : ℚ
  ot_rate : ℚ
  holiday_rate : ℚ
deriving DecidableEq

/-- Base pay: `Base_Pay = Reg_Hours * Hourly_Rate`. -/
def basePay (r : MergedRow) : ℚ := r.reg_hours * r.hourly_rate

/-- Overtime pay: `OT_Pay = OT_Hours * Hourly_Rate * OT_Rate`. -/
def otPay (r : MergedRow) : ℚ := r.ot_hours * r.hourly_rate * r.ot_rate

/-- Holiday premium `Holiday_Premium`: the extra `(Holiday_Rate - 1.0)` multiple of the
regular-hours pay, applied only when `Is_Holiday`. -/
def holidayPremium (r : MergedRow) : ℚ :=
  if r.is_holiday then r.reg_hours * r.hourly_rate * (r.holiday_rate - 1) else 0

/-- Entry total: `Total_Daily_Pay = Base_Pay + OT_Pay + Holiday_Premium`. -/
def entryTotal (r : MergedRow) : ℚ := basePay r + otPay r + holidayPremium r

end Koala

namespace Koala

/-! ## Theorems for claims C1–C3 (first batch; the rest follow below). -/

end Koala

/-- C1: on every joined row the pay computation produces
`base_pay = reg_hours * hourly_rate`, `ot_pay = ot_hours * hourly_rate * ot_rate`,
`holiday_premium = reg_hours * hourly_rate * (holiday_rate - 1)` when
`is_holiday` and `0` otherwise, and `entry_total` their sum; and on the
Scenario C row (`hourly_rate=100, ot_rate=1.25, holiday_rate=2, reg=8, ot=3,
is_holiday=true`) the results are `800, 375, 800, 1975`. -/
theorem pay_computation_formulas_and_scenarioC (r : Koala.MergedRow) :
    Koala.basePay r = r.reg_hours * r.hourly_rate ∧
    Koala.otPay r = r.ot_hours * r.hourly_rate * r.ot_rate ∧
    (r.is_holiday = true →
      Koala.holidayPremium r = r.reg_hours * r.hourly_rate * (r.holiday_rate - 1)) ∧
    (r.is_holiday = false → Koala.holidayPremium r = 0) ∧
    Koala.entryTotal r = Koala.basePay r + Koala.otPay r + Koala.holidayPremium r ∧
    (Koala.basePay ⟨0, "EMP-001", "A", 8, 3, true, 100, 5/4, 2⟩ = 800 ∧
     Koala.otPay ⟨0, "EMP-001", "A", 8, 3, true, 100, 5/4, 2⟩ = 375 ∧
     Koala.holidayPremium ⟨0, "EMP-001", "A", 8, 3, true, 100, 5/4, 2⟩ = 800 ∧
     Koala.entryTotal ⟨0, "EMP-001", "A", 8, 3, true, 100, 5/4, 2⟩ = 1975) := by
  refine ⟨rfl, rfl, ?_, ?_, rfl, ?_, ?_, ?_, ?_⟩
  · intro h
    simp [Koala.holidayPremium, h]
  · intro h
    simp [Koala.holidayPremium, h]
  · norm_num [Koala.basePay]
  · norm_num [Koala.otPay]
  · norm_num [Koala.holidayPremium]
  · norm_num [Koala.entryTotal, Koala.basePay, Koala.otPay, Koala.holidayPremium]

/-- Witness for C1: the hypotheses of the holiday conjuncts discharged on the
Scenario C row (a holiday row). -/
theorem pay_computation_formulas_and_scenarioC_witness :
    Koala.holidayPremium ⟨0, "EMP-001", "A", 8, 3, true, 100, 5/4, 2⟩ =
      (8 : ℚ) * 100 * (2 - 1) := by
  have h := pay_computation_formulas_and_scenarioC ⟨0, "EMP-001", "A", 8, 3, true, 100, 5/4, 2⟩
  exact h.2.2.1 rfl

/-- The split `reg + ot = adjusted` loses nothing: for every adjusted total,
`min(total, 8) + max(total - 8, 0) = total`. -/
theorem regHours_add_otHours (a : ℚ) : Koala.regHours a + Koala.otHours a = a := by
  unfold Koala.regHours Koala.otHours
  rcases le_total a 8 with h | h
  · rw [min_eq_left h, max_eq_right (by linarith)]
    ring
  · rw [min_eq_right h, max_eq_left (by linarith)]
    ring

/-- C2 counterexample: the claim fixes the break deduction at 1.0 hour for
the Hours Split Calculator, but the `admin_dtr_form` variant
(`src/moon.py` lines 394–399) deducts only 0.5 hour, so on
`time_in=08:00, time_out=17:00` it produces `ot = 0.5`, not `0`. -/
theorem admin_split_scenarioA_ot_nonzero :
    (Koala.adminDtrSplit 28800 61200).2 ≠ 0 := by
  have h : Koala.adminDtrSplit 28800 61200 = (8, 1/2) := by
    norm_num [Koala.adminDtrSplit, Koala.adjustedHours, Koala.rawHours,
      Koala.regHours, Koala.otHours]
  rw [h]
  norm_num

/-- C2 (amended): on `time_in=08:00 (28800s), time_out=17:00 (61200s)` the
raw duration is 9 hours; the `dtr_form` variant of `src/emp.py` (and
`src/moon.py` Staff Timekeeping) deducts a 1.0-hour break, giving
`adjusted = 8.0, reg = 8.0, ot = 0.0`; the `admin_dtr_form` variant of
`src/moon.py` deducts 0.5 hour, giving `adjusted = 8.5, reg = 8.0,
ot = 0.5`. -/
theorem split_scenarioA_by_variant :
    Koala.rawHours 28800 61200 = 9 ∧
    Koala.adjustedHours 1 9 = 8 ∧
    Koala.dtrSplit 28800 61200 = (8, 0) ∧
    Koala.adjustedHours (1/2) 9 = 17/2 ∧
    Koala.adminDtrSplit 28800 61200 = (8, 1/2) := by
  refine ⟨?_, ?_, ?_, ?_, ?_⟩
  · norm_num [Koala.rawHours]
  · norm_num [Koala.adjustedHours]
  · norm_num [Koala.dtrSplit, Koala.adjustedHours, Koala.rawHours,
      Koala.regHours, Koala.otHours]
  · norm_num [Koala.adjustedHours]
  · norm_num [Koala.adminDtrSplit, Koala.adjustedHours, Koala.rawHours,
      Koala.regHours, Koala.otHours]

/-- C3: conservation of hours in the split. When `raw ≤ 5` no break is
deducted (in either variant) and `reg + ot = raw`; when `raw > 5` the
adjusted total is `raw` minus the variant's break deduction (1 hour in
`emp.py`/Staff Timekeeping, 0.5 hour in `admin_dtr_form`) and
`reg + ot = adjusted` — the min-at-8 / max-over-8 split neither loses nor
creates hours beyond the break deduction. -/
theorem hours_split_conservation (raw : ℚ) :
    (raw ≤ 5 →
      Koala.adjustedHours 1 raw = raw ∧
      Koala.adjustedHours (1/2) raw = raw ∧
      Koala.regHours raw + Koala.otHours raw = raw) ∧
    (raw > 5 →
      Koala.adjustedHours 1 raw = raw - 1 ∧
      Koala.adjustedHours (1/2) raw = raw - 1/2 ∧
      Koala.regHours (Koala.adjustedHours 1 raw) +
        Koala.otHours (Koala.adjustedHours 1 raw) = Koala.adjustedHours 1 raw ∧
      Koala.regHours (Koala.adjustedHours (1/2) raw) +
        Koala.otHours (Koala.adjustedHours (1/2) raw) =
          Koala.adjustedHours (1/2) raw) := by
  constructor
  · intro h
    have hne : ¬ raw > 5 := by linarith
    refine ⟨?_, ?_, regHours_add_otHours raw⟩ <;>
      simp [Koala.adjustedHours, hne]
  · intro h
    exact ⟨if_pos h, if_pos h, regHours_add_otHours _, regHours_add_otHours _⟩

/-- Witness for C3: both branches discharged at the concrete raw durations
4 and 9. -/
theorem hours_split_conservation_witness :
    (Koala.adjustedHours 1 4 = 4 ∧
      Koala.regHours 4 + Koala.otHours 4 = 4) ∧
    (Koala.adjustedHours 1 9 = 9 - 1 ∧
      Koala.regHours (Koala.adjustedHours 1 9) +
        Koala.otHours (Koala.adjustedHours 1 9) = Koala.adjustedHours 1 9) := by
  have h4 := (hours_split_conservation 4).1 (by norm_num)
  have h9 := (hours_split_conservation 9).2 (by norm_num)
  exact ⟨⟨h4.1, h4.2.2⟩, ⟨h9.1, h9.2.2.1⟩⟩

/-- The break deduction never drives a nonnegative raw duration negative:
for `brk ≤ 1`, `0 ≤ raw` implies `0 ≤ adjustedHours brk raw`. -/
theorem adjustedHours_nonneg (brk raw : ℚ) (hbrk : brk ≤ 1) (hraw : 0 ≤ raw) :
    0 ≤ Koala.adjustedHours brk raw := by
  unfold Koala.adjustedHours
  split
  · linarith
  · exact hraw

/-- C4 counterexample: the Time Entry Validator accepts `time_in=17:00,
time_out=08:00` (no `time_out > time_in` check exists in the source), and on
that pair the split yields `reg_hours = -9`, outside `[0, 8]`. -/
theorem negative_duration_reg_below_zero :
    ¬ 0 ≤ (Koala.dtrSplit 61200 28800).1 := by
  have h : (Koala.dtrSplit 61200 28800).1 = -9 := by
    have hraw : Koala.rawHours 61200 28800 = -9 := by
      norm_num [Koala.rawHours]
    have hadj : Koala.adjustedHours 1 (-9) = -9 := by
      norm_num [Koala.adjustedHours]
    show Koala.regHours (Koala.adjustedHours 1 (Koala.rawHours 61200 28800)) = -9
    rw [hraw, hadj, Koala.regHours, min_eq_left (by norm_num)]
  rw [h]
  norm_num

/-- C4 (amended): for every accepted pair, in both split variants
`ot_hours ≥ 0` and `reg_hours ≤ 8` hold unconditionally, and
`reg_hours ∈ [0, 8]` holds whenever `time_in ≤ time_out`; the validator
accepts pairs with `time_out < time_in`, and those can drive `reg_hours`
negative. -/
theorem split_bounds (t_in t_out : ℤ) :
    (Koala.dtrSplit t_in t_out).1 ≤ 8 ∧
    0 ≤ (Koala.dtrSplit t_in t_out).2 ∧
    (Koala.adminDtrSplit t_in t_out).1 ≤ 8 ∧
    0 ≤ (Koala.adminDtrSplit t_in t_out).2 ∧
    (t_in ≤ t_out →
      0 ≤ (Koala.dtrSplit t_in t_out).1 ∧
      0 ≤ (Koala.adminDtrSplit t_in t_out).1) := by
  have hraw : ∀ h : t_in ≤ t_out, 0 ≤ Koala.rawHours t_in t_out := by
    intro h
    unfold Koala.rawHours
    have : (t_in : ℚ) ≤ (t_out : ℚ) := by exact_mod_cast h
    exact div_nonneg (by linarith) (by norm_num)
  refine ⟨min_le_right _ _, le_max_right _ _, min_le_right _ _, le_max_right _ _, ?_⟩
  intro h
  constructor
  · exact le_min (adjustedHours_nonneg 1 _ le_rfl (hraw h)) (by norm_num)
  · exact le_min (adjustedHours_nonneg (1/2) _ (by norm_num) (hraw h)) (by norm_num)

/-- Witness for C4 (amended): the nonnegative-duration conjunct discharged at
`time_in=08:00, time_out=17:00`. -/
theorem split_bounds_witness :
    (Koala.dtrSplit 28800 61200).1 ≤ 8 ∧ 0 ≤ (Koala.dtrSplit 28800 61200).1 := by
  have h := split_bounds 28800 61200
  exact ⟨h.1, (h.2.2.2.2 (by norm_num)).1⟩

/-! ## Period Aggregator (`tab_pay` generate handlers)

`src/emp.py` lines 215–217 filter the DTR by
`(Date >= start) & (Date <= end)`, and lines 243–250 group the merged rows
by `["Employee_ID", "Name"]` and sum the hour and pay columns per group. -/

namespace Koala

/-- One row of the generated payroll summary (`payroll_summary` in
`src/emp.py`, the fuller variant with separate base/OT/holiday totals). -/
structure SummaryRow where
  employee_id : String
  name : String
  total_reg_hours : ℚ
  total_ot_hours : ℚ
  total_base_pay : ℚ
  total_ot_pay : ℚ
  total_hol_pay : ℚ
  grand_total : ℚ
deriving DecidableEq

/-- The grouping key of `groupby(["Employee_ID", "Name"])`. -/
def rowKey (r : MergedRow) : String × String := (r.employee_id, r.name)

/-- The date-range mask `(Date >= start) & (Date <= end)` — both endpoints
inclusive. -/
def periodFilter (s e : ℤ) (rows : List MergedRow) : List MergedRow :=
  rows.filter fun r => decide (s ≤ r.date ∧ r.date ≤ e)

/-- The distinct `(Employee_ID, Name)` keys occurring in the rows, the groups
formed by `groupby` (an inner join on the keys actually present). -/
def groupKeys (rows : List MergedRow) : List (String × String) :=
  (rows.map rowKey).dedup

/-- The rows belonging to one `groupby` group. -/
def keyGroup (rows : List MergedRow) (k : String × String) : List MergedRow :=
  rows.filter fun r => decide (rowKey r = k)

/-- The `.agg(...)` sums of one group: `Total_Reg_Hours, Total_OT_Hours,
Total_Base_Pay, Total_OT_Pay, Total_Hol_Pay, Grand_Total`. -/
def summarize (k : String × String) (grp : List MergedRow) : SummaryRow where
  employee_id := k.1
  name := k.2
  total_reg_hours := (grp.map MergedRow.reg_hours).sum
  total_ot_hours := (grp.map MergedRow.ot_hours).sum
  total_base_pay := (grp.map basePay).sum
  total_ot_pay := (grp.map otPay).sum
  total_hol_pay := (grp.map holidayPremium).sum
  grand_total := (grp.map entryTotal).sum

/-- The grouped aggregation `merged.groupby(["Employee_ID", "Name"]).agg(...)`: one summary row per
distinct key present in the rows. -/
def aggregate (rows : List MergedRow) : List SummaryRow :=
  (groupKeys rows).map fun k => summarize k (keyGroup rows k)

/-- The whole Period Aggregator on joined rows: date-range filter followed by
the grouped aggregation. -/
def payrollSummary (s e : ℤ) (rows : List MergedRow) : List SummaryRow :=
  aggregate (periodFilter s e rows)

end Koala

namespace Koala

/-- A sample in-window joined row: employee `EMP-001` logged under the name
`Alice`. -/
def rowAlice : MergedRow :=
  ⟨0, "EMP-001", "Alice", 8, 0, false, 100, 5/4, 2⟩

/-- A second in-window joined row for the same employee id, logged under a
different denormalized name (`TimeEntry.employee_name` is a copy taken at
logging time and is not re-synced after a rename). -/
def rowAliceRenamed : MergedRow :=
  ⟨0, "EMP-001", "Alice Reyes", 6, 2, false, 100, 5/4, 2⟩

end Koala

/-- C5 counterexample: the aggregator groups by the pair
`(Employee_ID, Name)`, not by `Employee_ID` alone, so two entries of the same
employee logged under different denormalized names produce two summary rows
for that one employee — not "one row per employee". -/
theorem aggregator_two_rows_for_one_employee :
    (Koala.payrollSummary 0 0 [Koala.rowAlice, Koala.rowAliceRenamed]).map
      Koala.SummaryRow.employee_id = ["EMP-001", "EMP-001"] := by
  decide

/-- C5 (amended): the Period Aggregator keeps exactly the rows whose date
lies in the inclusive window `[s, e]`, groups them by the
`(employee_id, name)` pair, sums the hour and pay columns per group, and
emits exactly one summary row per distinct `(employee_id, name)` pair having
at least one row in the window — pairs with no row in the window are
omitted, never zero-filled. -/
theorem period_aggregator_grouping (rows : List Koala.MergedRow) (s e : ℤ) :
    (∀ r : Koala.MergedRow,
      r ∈ Koala.periodFilter s e rows ↔ r ∈ rows ∧ s ≤ r.date ∧ r.date ≤ e) ∧
    (Koala.payrollSummary s e rows).map (fun sr => (sr.employee_id, sr.name)) =
      Koala.groupKeys (Koala.periodFilter s e rows) ∧
    (Koala.groupKeys (Koala.periodFilter s e rows)).Nodup ∧
    (∀ k : String × String,
      k ∈ Koala.groupKeys (Koala.periodFilter s e rows) ↔
        ∃ r ∈ Koala.periodFilter s e rows, Koala.rowKey r = k) ∧
    (∀ sr ∈ Koala.payrollSummary s e rows,
      sr = Koala.summarize (sr.employee_id, sr.name)
        (Koala.keyGroup (Koala.periodFilter s e rows)
          (sr.employee_id, sr.name))) := by
  refine ⟨?_, ?_, List.nodup_dedup _, ?_, ?_⟩
  · intro r
    simp [Koala.periodFilter, List.mem_filter]
  · simp only [Koala.payrollSummary, Koala.aggregate, List.map_map]
    have : ((fun sr : Koala.SummaryRow => (sr.employee_id, sr.name)) ∘
        fun k => Koala.summarize k
          (Koala.keyGroup (Koala.periodFilter s e rows) k)) = id := by
      funext k
      simp [Koala.summarize]
    rw [this, List.map_id]
  · intro k
    simp [Koala.groupKeys, List.mem_dedup, List.mem_map]
  · intro sr hsr
    simp only [Koala.payrollSummary, Koala.aggregate, List.mem_map] at hsr
    obtain ⟨k, hk, rfl⟩ := hsr
    simp [Koala.summarize]

/-- Witness for C5 (amended): the filter membership and the per-row summary
identity discharged on a concrete one-row table over the window `[0, 0]`. -/
theorem period_aggregator_grouping_witness :
    Koala.rowAlice ∈ Koala.periodFilter 0 0 [Koala.rowAlice] ∧
    (Koala.summarize ("EMP-001", "Alice")
        (Koala.keyGroup (Koala.periodFilter 0 0 [Koala.rowAlice])
          ("EMP-001", "Alice"))).grand_total = 800 := by
  have h := period_aggregator_grouping [Koala.rowAlice] 0 0
  have hfil : Koala.periodFilter 0 0 [Koala.rowAlice] = [Koala.rowAlice] := by
    simp [Koala.periodFilter, Koala.rowAlice]
  constructor
  · exact (h.1 Koala.rowAlice).2
      ⟨by simp, by norm_num [Koala.rowAlice], by norm_num [Koala.rowAlice]⟩
  · have hmem : Koala.summarize ("EMP-001", "Alice")
        (Koala.keyGroup (Koala.periodFilter 0 0 [Koala.rowAlice])
          ("EMP-001", "Alice")) ∈ Koala.payrollSummary 0 0 [Koala.rowAlice] := by
      have hkeys : Koala.groupKeys [Koala.rowAlice] = [("EMP-001", "Alice")] := by
        simp [Koala.groupKeys, Koala.rowKey, Koala.rowAlice]
      simp only [Koala.payrollSummary, Koala.aggregate, hfil, hkeys,
        List.map_cons, List.map_nil]
      exact List.mem_singleton.2 rfl
    have h5 := h.2.2.2.2 _ hmem
    rw [h5, hfil]
    norm_num [Koala.summarize, Koala.keyGroup, Koala.rowKey, Koala.rowAlice,
      Koala.entryTotal, Koala.basePay, Koala.otPay, Koala.holidayPremium]

/-! ## Time-entry logging (DTR writes)

`src/emp.py` lines 147–169 (`dtr_form`): compute the split and append the new
row to the DTR table — no duplicate check of any kind.

`src/moon.py` lines 387–408 (`admin_dtr_form`): first check whether a row
with the same `Employee_ID` and `Date` already exists; if so show
`st.error("Log already exists.")` and save nothing; otherwise compute the
split and append. (The source's append line spells `pd.data_editor` where
`pd.DataFrame` is plainly meant; the non-duplicate branch below embeds the
append that line attempts. The duplicate branch, which the theorems use, is
unaffected.) -/

namespace Koala

/-- One row of the DTR table
(`Date, Employee_ID, Name, Time_In, Time_Out, Reg_Hours, OT_Hours,
Is_Holiday, Notes`). -/
structure DtrRow where
  date : ℤ
  employee_id : String
  name : String
  time_in : ℤ
  time_out : ℤ
  reg_hours : ℚ
  ot_hours : ℚ
  is_holiday : Bool
  notes : String
deriving DecidableEq

/-- Outcome of an `admin_dtr_form` Log Time submission. -/
inductive LogResult where
  | duplicateEntry : LogResult
  | logged : LogResult
deriving DecidableEq

/-- The `dtr_form` Log Time handler of `src/emp.py` (lines 147–169): split
the hours and append the entry unconditionally. -/
def empLogTime (dtr : List DtrRow) (d : ℤ) (eid nm : String)
    (t_in t_out : ℤ) (hol : Bool) (nts : String) : List DtrRow :=
  let split := dtrSplit t_in t_out
  dtr ++ [⟨d, eid, nm, t_in, t_out, split.1, split.2, hol, nts⟩]

/-- The `admin_dtr_form` Log Time handler of `src/moon.py` (lines 387–408):
reject with an error when a row for the same `(Employee_ID, Date)` exists,
leaving the table untouched; otherwise append the split entry. -/
def adminLogTime (dtr : List DtrRow) (d : ℤ) (eid nm : String)
    (t_in t_out : ℤ) (hol : Bool) (nts : String) : List DtrRow × LogResult :=
  if dtr.any fun r => r.employee_id == eid && r.date == d then
    (dtr, .duplicateEntry)
  else
    let split := adminDtrSplit t_in t_out
    (dtr ++ [⟨d, eid, nm, t_in, t_out, split.1, split.2, hol, nts⟩], .logged)

/-- An existing DTR row: employee `EMP-001` already logged on day 5. -/
def dtrExisting : DtrRow :=
  ⟨5, "EMP-001", "Alice", 28800, 61200, 8, 0, false, ""⟩

end Koala

/-- C6 counterexample: the `dtr_form` handler of `src/emp.py` performs no
duplicate check — logging a second entry for `(EMP-001, day 5)` on a table
that already holds one does not fail and does change the table (it appends,
growing the table to two rows for that employee and date). -/
theorem emp_logtime_appends_duplicate :
    (Koala.empLogTime [Koala.dtrExisting] 5 "EMP-001" "Alice" 28800 61200
        false "").length = 2 ∧
    ((Koala.empLogTime [Koala.dtrExisting] 5 "EMP-001" "Alice" 28800 61200
        false "").map fun r => (r.employee_id, r.date)) =
      [("EMP-001", 5), ("EMP-001", 5)] := by
  constructor
  · simp [Koala.empLogTime]
  · simp [Koala.empLogTime, Koala.dtrExisting]

/-- C6 (amended): in the `admin_dtr_form` variant (`src/moon.py`), when an
entry with the same `employee_id` and `date` already exists the submission
fails with the duplicate error and the DTR table is left completely
unchanged; the `dtr_form` variant (`src/emp.py`) performs no duplicate check
and appends the entry. -/
theorem duplicate_entry_rejected (dtr : List Koala.DtrRow) (d : ℤ)
    (eid nm : String) (t_in t_out : ℤ) (hol : Bool) (nts : String)
    (h : ∃ r ∈ dtr, r.employee_id = eid ∧ r.date = d) :
    Koala.adminLogTime dtr d eid nm t_in t_out hol nts =
      (dtr, Koala.LogResult.duplicateEntry) ∧
    Koala.empLogTime dtr d eid nm t_in t_out hol nts =
      dtr ++ [⟨d, eid, nm, t_in, t_out, (Koala.dtrSplit t_in t_out).1,
        (Koala.dtrSplit t_in t_out).2, hol, nts⟩] := by
  have hc : (dtr.any fun r => r.employee_id == eid && r.date == d) = true := by
    rcases h with ⟨r, hr, h1, h2⟩
    rw [List.any_eq_true]
    exact ⟨r, hr, by simp [h1, h2]⟩
  exact ⟨by simp [Koala.adminLogTime, hc], rfl⟩

/-- Witness for C6 (amended): a duplicate `(EMP-001, day 5)` submission on a
one-row table is rejected and the table is returned unchanged. -/
theorem duplicate_entry_rejected_witness :
    Koala.adminLogTime [Koala.dtrExisting] 5 "EMP-001" "Alice" 28800 61200
        false "" =
      ([Koala.dtrExisting], Koala.LogResult.duplicateEntry) := by
  exact (duplicate_entry_rejected [Koala.dtrExisting] 5 "EMP-001" "Alice"
    28800 61200 false ""
    ⟨Koala.dtrExisting, by simp, rfl, rfl⟩).1

/-! ## Left merge with the rate card, and the Generate handlers

`src/emp.py` line 223 / `src/moon.py` line 443:
`pd.merge(period, emp_df, on="Employee_ID", how="left")`. A DTR row whose
`Employee_ID` has no employee record gets NaN rate columns; the pay columns
computed from them are NaN too, and the grouped `sum` skips NaN, so such a
row contributes 0 to every pay total. (`src/moon.py` line 431 additionally
applies `fillna(0)` to the rate columns of the employee table itself before
the merge.) `none` below embeds NaN; a grouped sum takes a missing value
as 0, exactly the `skipna` behavior. -/

namespace Koala

/-- One row of the employee table, the rate card
(`Employee_ID, Name, Position, Start_Date, Status, Daily_Rate, Hourly_Rate,
OT_Rate, Holiday_Rate`). -/
structure Employee where
  employee_id : String
  name : String
  position : String
  start_date : String
  status : String
  daily_rate : ℚ
  hourly_rate : ℚ
  ot_rate : ℚ
  holiday_rate : ℚ
deriving DecidableEq

/-- The rate-card side of the left merge on `Employee_ID`. -/
def lookupEmployee (emps : List Employee) (eid : String) : Option Employee :=
  emps.find? fun emp => emp.employee_id == eid

/-- A DTR row paired with a found rate card, as one row of the `merged`
dataframe. -/
def mergeRow (r : DtrRow) (emp : Employee) : MergedRow :=
  ⟨r.date, r.employee_id, r.name, r.reg_hours, r.ot_hours, r.is_holiday,
    emp.hourly_rate, emp.ot_rate, emp.holiday_rate⟩

/-- Column `Base_Pay` of a left-merged row; `none` is the NaN produced when the
employee id has no rate card. -/
def mergedBasePay (emps : List Employee) (r : DtrRow) : Option ℚ :=
  (lookupEmployee emps r.employee_id).map fun emp => basePay (mergeRow r emp)

/-- Column `OT_Pay` of a left-merged row (`none` = NaN). -/
def mergedOtPay (emps : List Employee) (r : DtrRow) : Option ℚ :=
  (lookupEmployee emps r.employee_id).map fun emp => otPay (mergeRow r emp)

/-- Column `Holiday_Premium` of a left-merged row (`none` = NaN). -/
def mergedHolidayPremium (emps : List Employee) (r : DtrRow) : Option ℚ :=
  (lookupEmployee emps r.employee_id).map fun emp =>
    holidayPremium (mergeRow r emp)

/-- Column `Total_Daily_Pay` of a left-merged row (`none` = NaN). -/
def mergedEntryTotal (emps : List Employee) (r : DtrRow) : Option ℚ :=
  (lookupEmployee emps r.employee_id).map fun emp => entryTotal (mergeRow r emp)

/-- A grouped pandas `sum` over a column that may hold NaN: NaN values are
skipped, i.e. each missing value contributes 0. -/
def nanSum (xs : List (Option ℚ)) : ℚ :=
  (xs.map fun o => o.getD 0).sum

/-- The grouping key of a DTR row, `(Employee_ID, Name)`. -/
def dtrKey (r : DtrRow) : String × String := (r.employee_id, r.name)

/-- The summary built by the Generate handlers from the in-period DTR rows
and the employee table: left merge, pay columns, then
`groupby(["Employee_ID", "Name"])` with per-group sums. -/
def generateSummary (emps : List Employee) (period : List DtrRow) :
    List SummaryRow :=
  ((period.map dtrKey).dedup).map fun k =>
    let grp := period.filter fun r => decide (dtrKey r = k)
    { employee_id := k.1
      name := k.2
      total_reg_hours := (grp.map DtrRow.reg_hours).sum
      total_ot_hours := (grp.map DtrRow.ot_hours).sum
      total_base_pay := nanSum (grp.map (mergedBasePay emps))
      total_ot_pay := nanSum (grp.map (mergedOtPay emps))
      total_hol_pay := nanSum (grp.map (mergedHolidayPremium emps))
      grand_total := nanSum (grp.map (mergedEntryTotal emps)) }

/-- The persisted tables the payroll tab reads. -/
structure Tables where
  employees : List Employee
  dtr : List DtrRow
deriving DecidableEq

/-- Outcome of a Generate click. -/
inductive GenResult where
  | emptyPeriod : GenResult
  | summary : List SummaryRow → GenResult
deriving DecidableEq

/-- The Generate handler (`src/emp.py` lines 210–266, `src/moon.py` lines
426–453): filter the DTR to the inclusive window; when nothing matches show
the informational "No logs found" warning, otherwise merge, compute and show
the summary. The handler never calls `save_csv`, so the tables are returned
unchanged in either branch. -/
def generatePayroll (t : Tables) (s e : ℤ) : Tables × GenResult :=
  let period := t.dtr.filter fun r => decide (s ≤ r.date ∧ r.date ≤ e)
  if period.isEmpty then (t, .emptyPeriod)
  else (t, .summary (generateSummary t.employees period))

end Koala

/-- C7: a DTR entry whose `employee_id` is absent from the employee table
does not break payroll generation: the left merge yields no rate card
(NaN rates), every pay column of that entry is NaN, and — the grouped sums
skipping NaN — the entry contributes 0 to base pay, OT pay, holiday premium
and total, with no other signal. -/
theorem missing_rate_card_zero_contribution (emps : List Koala.Employee)
    (r : Koala.DtrRow)
    (h : ∀ emp ∈ emps, emp.employee_id ≠ r.employee_id) :
    Koala.lookupEmployee emps r.employee_id = none ∧
    Koala.mergedBasePay emps r = none ∧
    Koala.mergedOtPay emps r = none ∧
    Koala.mergedHolidayPremium emps r = none ∧
    Koala.mergedEntryTotal emps r = none ∧
    Koala.nanSum [Koala.mergedBasePay emps r] = 0 ∧
    Koala.nanSum [Koala.mergedOtPay emps r] = 0 ∧
    Koala.nanSum [Koala.mergedHolidayPremium emps r] = 0 ∧
    Koala.nanSum [Koala.mergedEntryTotal emps r] = 0 := by
  have hl : Koala.lookupEmployee emps r.employee_id = none := by
    rw [Koala.lookupEmployee, List.find?_eq_none]
    intro emp hemp
    simpa using h emp hemp
  refine ⟨hl, ?_, ?_, ?_, ?_, ?_, ?_, ?_, ?_⟩ <;>
    simp [Koala.mergedBasePay, Koala.mergedOtPay, Koala.mergedHolidayPremium,
      Koala.mergedEntryTotal, Koala.nanSum, hl]

/-- Witness for C7: a concrete DTR row for `EMP-001` against an employee
table holding only `EMP-002` contributes nothing to any pay sum. -/
theorem missing_rate_card_zero_contribution_witness :
    Koala.nanSum [Koala.mergedEntryTotal
      [⟨"EMP-002", "Bob", "Staff", "2024-01-01", "Regular", 800, 100, 5/4, 2⟩]
      Koala.dtrExisting] = 0 := by
  exact (missing_rate_card_zero_contribution
    [⟨"EMP-002", "Bob", "Staff", "2024-01-01", "Regular", 800, 100, 5/4, 2⟩]
    Koala.dtrExisting (by intro emp hemp; simp at hemp; simp [hemp, Koala.dtrExisting])).2.2.2.2.2.2.2.2

/-- C8: when no DTR entry falls inside the inclusive window `[s, e]`, the
Generate handler reports the informational empty-period condition (the
"No logs found" warning) rather than raising an error, the tables are left
unmodified (the handler writes nothing), and the aggregation of the empty
filtered set is the empty result set. -/
theorem empty_period_is_informational (t : Koala.Tables) (s e : ℤ)
    (h : ∀ r ∈ t.dtr, ¬ (s ≤ r.date ∧ r.date ≤ e)) :
    (t.dtr.filter fun r => decide (s ≤ r.date ∧ r.date ≤ e)) = [] ∧
    Koala.generatePayroll t s e = (t, Koala.GenResult.emptyPeriod) ∧
    Koala.generateSummary t.employees [] = [] := by
  have hfil : (t.dtr.filter fun r => decide (s ≤ r.date ∧ r.date ≤ e)) = [] := by
    rw [List.filter_eq_nil_iff]
    intro r hr
    simpa using h r hr
  refine ⟨hfil, ?_, rfl⟩
  simp only [Koala.generatePayroll, hfil, List.isEmpty_nil, if_true]

/-- Witness for C8: a table whose only DTR entry is on day 5, queried over
the window `[0, 3]`, yields the empty-period outcome with the tables
unchanged. -/
theorem empty_period_is_informational_witness :
    Koala.generatePayroll ⟨[], [Koala.dtrExisting]⟩ 0 3 =
      (⟨[], [Koala.dtrExisting]⟩, Koala.GenResult.emptyPeriod) := by
  exact (empty_period_is_informational ⟨[], [Koala.dtrExisting]⟩ 0 3
    (by intro r hr; simp at hr; simp [hr, Koala.dtrExisting])).2.1

/-! ## Order status update (`src/app.py` lines 266–270, `src/moon.py` 218–222)

    sales_df.loc[sales_df["Order_ID"] == order_to_fetch,
        ["Work_Status", "Payment_Status", "Payment_Type", "Notes"]] = [nw, np, nt, str(nn)]
    save_data(sales_df)

A row-positional update: rows whose `Order_ID` equals the fetched id get the
four listed columns overwritten; every other cell of the table is kept. -/

namespace Koala

/-- One row of the sales table (`src/moon.py` `init_all_dbs` column list). -/
structure Order where
  order_id : String
  date : ℤ
  customer : String
  contact : String
  tier : String
  garment_type : String
  loads : ℤ
  additionals : ℚ
  misc_amount : ℚ
  amount : ℚ
  payment_type : String
  payment_status : String
  work_status : String
  notes : String
deriving DecidableEq

/-- The Save Changes handler's masked column assignment: on rows matching the
fetched `Order_ID`, set `Work_Status, Payment_Status, Payment_Type, Notes`
to the form values; leave all other rows as they are. -/
def updateOrderStatus (df : List Order) (oid nw np nt nn : String) :
    List Order :=
  df.map fun r =>
    if r.order_id == oid then
      { r with work_status := nw, payment_status := np,
               payment_type := nt, notes := nn }
    else r

/-- A sample order in the sales table. -/
def orderSample : Order :=
  ⟨"231219-1200", 0, "Cora", "0917", "Tier 1 (₱125)", "Regular", 2, 50, 0,
    300, "Cash", "Unpaid", "WIP", "None | "⟩

end Koala

/-- C9: the saved update rewrites only the `Work_Status`, `Payment_Status`,
`Payment_Type` and `Notes` cells of the rows whose `Order_ID` equals the
fetched id; the `Order_ID`, `Date`, `Customer`, `Amount` and every other
column of those rows are preserved, rows with a different `Order_ID` are
returned verbatim, and no row is added or removed. -/
theorem update_order_frame (df : List Koala.Order) (oid nw np nt nn : String)
    (i : ℕ) (h : i < df.length) :
    (Koala.updateOrderStatus df oid nw np nt nn).length = df.length ∧
    ∃ h2 : i < (Koala.updateOrderStatus df oid nw np nt nn).length,
      let r := df.get ⟨i, h⟩
      let r2 := (Koala.updateOrderStatus df oid nw np nt nn).get ⟨i, h2⟩
      (r.order_id ≠ oid → r2 = r) ∧
      (r.order_id = oid →
        r2 = { r with work_status := nw, payment_status := np,
                      payment_type := nt, notes := nn }) ∧
      r2.order_id = r.order_id ∧ r2.date = r.date ∧
      r2.customer = r.customer ∧ r2.contact = r.contact ∧
      r2.tier = r.tier ∧ r2.garment_type = r.garment_type ∧
      r2.loads = r.loads ∧ r2.additionals = r.additionals ∧
      r2.misc_amount = r.misc_amount ∧ r2.amount = r.amount := by
  have hlen : (Koala.updateOrderStatus df oid nw np nt nn).length = df.length :=
    List.length_map df _
  refine ⟨hlen, hlen ▸ h, ?_⟩
  have hget : (Koala.updateOrderStatus df oid nw np nt nn).get ⟨i, hlen ▸ h⟩ =
      if (df.get ⟨i, h⟩).order_id == oid then
        { df.get ⟨i, h⟩ with work_status := nw, payment_status := np,
                             payment_type := nt, notes := nn }
      else df.get ⟨i, h⟩ := by
    simp [Koala.updateOrderStatus]
  by_cases hid : (df.get ⟨i, h⟩).order_id = oid
  · rw [hget, if_pos (by simpa using hid)]
    refine ⟨fun hn => absurd hid hn, fun _ => rfl, ?_, rfl, rfl, rfl, rfl, rfl,
      rfl, rfl, rfl, rfl⟩
    rfl
  · rw [hget, if_neg (by simpa using hid)]
    exact ⟨fun _ => rfl, fun he => absurd he hid, rfl, rfl, rfl, rfl, rfl, rfl,
      rfl, rfl, rfl, rfl⟩

/-- Witness for C9: the frame property discharged on a one-row table at index
0, updating the matching order id. -/
theorem update_order_frame_witness :
    (Koala.updateOrderStatus [Koala.orderSample] "231219-1200" "Ready" "Paid"
      "GCash" "picked up").length = 1 := by
  exact (update_order_frame [Koala.orderSample] "231219-1200" "Ready" "Paid"
    "GCash" "picked up" 0 (by simp)).1

/-! ## Time tracker `stop_timer` (`src/clocky.py` 150–173, `src/online_clocky.py` 81–104)

    hours = duration.total_seconds() / 3600.0
    amount = hours * hourly_rate if billable else 0.0
    record["amount"] = f"{amount:.2f}"        # clocky.py
    rec["amount"] = round(amount, 2)          # online_clocky.py

Both variants store the amount rounded to two decimal places, not the raw
product. `round2` below is the nearest-cent model of that rounding; its tie
behavior (half up here, half to even in Python) can differ only at exact
half-cents, which none of the theorems touch. -/

namespace Koala

/-- Rounding to two decimal places as performed at storage time by
`round(amount, 2)` / `f"{amount:.2f}"`. -/
def round2 (x : ℚ) : ℚ := (⌊x * 100 + 1/2⌋ : ℤ) / 100

/-- Elapsed hours `hours = duration.total_seconds() / 3600.0` for a timer run from
`startSec` to `endSec` (epoch seconds). -/
def trackerHours (startSec endSec : ℤ) : ℚ :=
  ((endSec : ℚ) - (startSec : ℚ)) / 3600

/-- The computed amount: `amount = hours * hourly_rate if billable else 0.0`. -/
def trackerAmount (billable : Bool) (hours rate : ℚ) : ℚ :=
  if billable then hours * rate else 0

/-- The amount actually written into the stopped-timer record: the computed
amount rounded to two decimals. -/
def storedAmount (billable : Bool) (startSec endSec : ℤ) (rate : ℚ) : ℚ :=
  round2 (trackerAmount billable (trackerHours startSec endSec) rate)

end Koala

/-- C10 counterexample: a billable one-second run at rate 100 computes
`hours * rate = 1/36 ≈ 0.0278`, but the record stores the rounded `0.03`,
so the stored amount does not equal `hours * hourly_rate`. -/
theorem stored_amount_is_rounded :
    Koala.storedAmount true 0 1 100 ≠
      Koala.trackerHours 0 1 * 100 := by
  have hh : Koala.trackerHours 0 1 = 1/3600 := by
    norm_num [Koala.trackerHours]
  have hfl : (⌊(1/36 : ℚ) * 100 + 1/2⌋ : ℤ) = 3 := by
    rw [Int.floor_eq_iff]
    norm_num
  have hs : Koala.storedAmount true 0 1 100 = 3/100 := by
    rw [Koala.storedAmount, Koala.trackerAmount, if_pos rfl, hh]
    show Koala.round2 (1/3600 * 100) = 3/100
    have : (1/3600 : ℚ) * 100 = 1/36 := by norm_num
    rw [Koala.round2, this, hfl]
    norm_num
  rw [hs, hh]
  norm_num

/-- C10 (amended): the stored amount of a stopped-timer record equals
`hours * hourly_rate` rounded to two decimal places when the billable flag
is set, and exactly `0.0` when it is not — non-billable entries carry a zero
amount regardless of duration and rate; and a billable one-hour run at rate
125 stores exactly 125. -/
theorem stop_timer_amount (startSec endSec : ℤ) (rate : ℚ) :
    Koala.storedAmount false startSec endSec rate = 0 ∧
    Koala.storedAmount true startSec endSec rate =
      Koala.round2 (Koala.trackerHours startSec endSec * rate) ∧
    Koala.storedAmount true 0 3600 125 = 125 := by
  refine ⟨?_, ?_, ?_⟩
  · rw [Koala.storedAmount, Koala.trackerAmount, if_neg (by simp), Koala.round2]
    have : (⌊(0 : ℚ) * 100 + 1/2⌋ : ℤ) = 0 := by
      rw [Int.floor_eq_iff]
      norm_num
    rw [this]
    norm_num
  · rw [Koala.storedAmount, Koala.trackerAmount, if_pos rfl]
  · have hh : Koala.trackerHours 0 3600 = 1 := by
      norm_num [Koala.trackerHours]
    rw [Koala.storedAmount, Koala.trackerAmount, if_pos rfl, hh, Koala.round2]
    have : (⌊(1 : ℚ) * 125 * 100 + 1/2⌋ : ℤ) = 12500 := by
      rw [Int.floor_eq_iff]
      norm_num
    rw [this]
    norm_num
